import Mathlib

/-!
Shallow embedding of `src/worker.js` (dotimation): a particle visualization
worker with a polymorphic render-object family (`RenderObject`, `CircleDot`,
`SlantedCircleDot`, `GlobeDot`), a `CanvasScene` driver, and an `onmessage`
handler dispatching INIT / START / RESIZE messages.

Modelling conventions:
* JS numbers are modelled by `JSNum := Option ℝ`, where `none` stands for a
  non-finite value (`NaN`, or `undefined` read from a missing field, which
  behaves as `NaN` in arithmetic).  Arithmetic propagates `none`; division
  with a zero denominator yields `none` (JS yields `Infinity`/`NaN` there,
  both non-finite — the claims only distinguish finite from non-finite).
* Each `Math.random()` call becomes an explicit real-valued input, passed in
  source order; streams of draws are functions `ℕ → ℕ → ℝ` (object index,
  draw index).
* The canvas 2d context (`ctx`) is an external collaborator: rasterization
  calls (`fillRect`, `arc`, `fill`, `drawImage`, `fillText`, `clearRect`,
  the pre-drawn particle sprite) have no effect on the worker's state and
  are omitted; `draw()` keeps its state effect, namely calling `project()`.
* `requestAnimationFrame` scheduling is external; one frame tick is the
  explicit function `CanvasScene.animate`, taking the `performance.now()`
  timestamp as an input.
-/

noncomputable section

/-- A JS number: `some x` is the finite double `x` (doubles idealized as
reals), `none` is `NaN` / `undefined`-used-as-a-number. -/
abbrev JSNum : Type := Option ℝ

/-- Finite JS number literal. -/
def jr (x : ℝ) : JSNum := some x

/-- JS addition (`NaN` propagates). -/
def jadd : JSNum → JSNum → JSNum
  | some a, some b => some (a + b)
  | _, _ => none

/-- JS subtraction (`NaN` propagates). -/
def jsub : JSNum → JSNum → JSNum
  | some a, some b => some (a - b)
  | _, _ => none

/-- JS multiplication (`NaN` propagates). -/
def jmul : JSNum → JSNum → JSNum
  | some a, some b => some (a * b)
  | _, _ => none

/-- JS division: `NaN` propagates, and a zero denominator yields a
non-finite value (`±Infinity` or `NaN` in JS, collapsed to `none`). -/
def jdiv : JSNum → JSNum → JSNum
  | some a, some b => if b = 0 then none else some (a / b)
  | _, _ => none

/-- `Math.sin` (`NaN` propagates). -/
def jsin : JSNum → JSNum
  | some a => some (Real.sin a)
  | none => none

/-- `Math.cos` (`NaN` propagates). -/
def jcos : JSNum → JSNum
  | some a => some (Real.cos a)
  | none => none

/-- `Math.acos` (`NaN` propagates; out-of-range inputs do not occur in the
modelled code paths). -/
def jacos : JSNum → JSNum
  | some a => some (Real.arccos a)
  | none => none

/-- `Math.floor` (`NaN` propagates). -/
def jfloor : JSNum → JSNum
  | some a => some (⌊a⌋ : ℝ)
  | none => none

@[simp] theorem jadd_some (a b : ℝ) : jadd (some a) (some b) = some (a + b) := rfl
@[simp] theorem jsub_some (a b : ℝ) : jsub (some a) (some b) = some (a - b) := rfl
@[simp] theorem jmul_some (a b : ℝ) : jmul (some a) (some b) = some (a * b) := rfl
@[simp] theorem jsin_some (a : ℝ) : jsin (some a) = some (Real.sin a) := rfl
@[simp] theorem jcos_some (a : ℝ) : jcos (some a) = some (Real.cos a) := rfl
@[simp] theorem jacos_some (a : ℝ) : jacos (some a) = some (Real.arccos a) := rfl
@[simp] theorem jfloor_some (a : ℝ) : jfloor (some a) = some (⌊a⌋ : ℝ) := rfl

@[simp] theorem jadd_none_left (b : JSNum) : jadd none b = none := by
  cases b <;> rfl
@[simp] theorem jadd_none_right (a : JSNum) : jadd a none = none := by
  cases a <;> rfl
@[simp] theorem jsub_none_left (b : JSNum) : jsub none b = none := by
  cases b <;> rfl
@[simp] theorem jsub_none_right (a : JSNum) : jsub a none = none := by
  cases a <;> rfl
@[simp] theorem jmul_none_left (b : JSNum) : jmul none b = none := by
  cases b <;> rfl
@[simp] theorem jmul_none_right (a : JSNum) : jmul a none = none := by
  cases a <;> rfl
@[simp] theorem jdiv_none_left (b : JSNum) : jdiv none b = none := by
  cases b <;> rfl
@[simp] theorem jdiv_none_right (a : JSNum) : jdiv a none = none := by
  cases a <;> rfl
@[simp] theorem jsin_none : jsin none = none := rfl
@[simp] theorem jcos_none : jcos none = none := rfl
@[simp] theorem jacos_none : jacos none = none := rfl
@[simp] theorem jfloor_none : jfloor none = none := rfl

theorem jdiv_some_of_ne (a b : ℝ) (hb : b ≠ 0) :
    jdiv (some a) (some b) = some (a / b) := by
  simp [jdiv, hb]

/-- JS `~~x` (double-NOT): truncation toward zero.  (JS also wraps to 32-bit
integers; the values arising here are far inside that range, so the wrap is
not modelled.)  `~~NaN = 0` and `~~Infinity = 0` in JS; the only division
feeding it, `1000 / (now - lastDrawTime)`, is modelled with real division
where a zero delta also yields `0`, matching. -/
def jsTrunc (x : ℝ) : ℤ :=
  if 0 ≤ x then ⌊x⌋ else -⌊-x⌋

theorem jsTrunc_of_nonneg {x : ℝ} (h : 0 ≤ x) : jsTrunc x = ⌊x⌋ := by
  simp [jsTrunc, h]

/-! ## `CircleDot` (extends `RenderObject`)

`RenderObject`'s constructor sets `x`, `y` (two `Math.random()` draws),
`size = 5`, `height`, `width`; `CircleDot`'s constructor then overwrites
`x = 0`, `y = 0` and adds `angle = Math.floor(Math.random() * 360)` and
`radius = width / 4`.  The fields `perspective`, `projection_center_x`,
`projection_center_y` do not exist until `resizeUpdate` assigns them
(reading them before that yields `undefined`, i.e. `none`). -/

structure CircleDot where
  x : JSNum
  y : JSNum
  size : JSNum
  height : JSNum
  width : JSNum
  angle : JSNum
  radius : JSNum
  perspective : JSNum
  projection_center_x : JSNum
  projection_center_y : JSNum

/-- `new CircleDot(ctx, width, height)`; `r1`, `r2` are the two
`Math.random()` draws consumed by the `RenderObject` super-constructor
(their results are overwritten), `r3` the draw for `angle`. -/
def CircleDot.new (width height : JSNum) (_r1 _r2 r3 : ℝ) : CircleDot :=
  { x := jr 0
    y := jr 0
    size := jr 5
    height := height
    width := width
    angle := jfloor (jmul (jr r3) (jr 360))
    radius := jdiv width (jr 4)
    perspective := none
    projection_center_x := none
    projection_center_y := none }

/-- `CircleDot.update`: `this.angle += 1`. -/
def CircleDot.update (o : CircleDot) : CircleDot :=
  { o with angle := jadd o.angle (jr 1) }

/-- `CircleDot.project`: `theta = angle * π / 180`;
`x = radius * cos(theta) + width / 2`; `y = radius * sin(theta) + height / 2`. -/
def CircleDot.project (o : CircleDot) : CircleDot :=
  let theta := jdiv (jmul o.angle (jr Real.pi)) (jr 180)
  { o with
    x := jadd (jmul o.radius (jcos theta)) (jdiv o.width (jr 2))
    y := jadd (jmul o.radius (jsin theta)) (jdiv o.height (jr 2)) }

/-- `CircleDot.draw` calls `this.project()` and then rasterizes an arc
(external); only the `project` state effect is modelled. -/
def CircleDot.draw (o : CircleDot) : CircleDot :=
  o.project

/-- `RenderObject.resizeUpdate(height, width)`, inherited unchanged by
`CircleDot`: reassigns `height`, `width`, re-randomizes `x`, `y` (draws
`r1`, `r2`), and sets the 3d fields `perspective = width * 0.8`,
`projection_center_x = width / 2`, `projection_center_y = height / 2`.
It does NOT touch `angle` or `radius`. -/
def CircleDot.resizeUpdate (o : CircleDot) (height width : JSNum)
    (r1 r2 : ℝ) : CircleDot :=
  { o with
    height := height
    width := width
    x := jmul (jr r1) width
    y := jmul (jr r2) height
    perspective := jmul width (jr 0.8)
    projection_center_x := jdiv width (jr 2)
    projection_center_y := jdiv height (jr 2) }

/-! ## `SlantedCircleDot` (extends `RenderObject`)

Constructor overwrites `x = 0`, `y = 0`, adds `z = 0`,
`theta = Math.floor(Math.random() * 360)`, `phi = 45` (note: a raw number
handed to `Math.sin`/`Math.cos`, i.e. interpreted as radians),
`radius = width / 4`, `perspective = 0`,
`projection_center_x = width / 2`, `projection_center_y = height / 2`,
and zeroed projection outputs. -/

structure SlantedCircleDot where
  x : JSNum
  y : JSNum
  z : JSNum
  size : JSNum
  height : JSNum
  width : JSNum
  theta : JSNum
  phi : JSNum
  radius : JSNum
  perspective : JSNum
  projection_center_x : JSNum
  projection_center_y : JSNum
  scaleProjected : JSNum
  xProjected : JSNum
  yProjected : JSNum

/-- `new SlantedCircleDot(ctx, width, height)`; `r1`, `r2` are the two
super-constructor draws (overwritten), `r3` the draw for `theta`. -/
def SlantedCircleDot.new (width height : JSNum) (_r1 _r2 r3 : ℝ) :
    SlantedCircleDot :=
  { x := jr 0
    y := jr 0
    z := jr 0
    size := jr 5
    height := height
    width := width
    theta := jfloor (jmul (jr r3) (jr 360))
    phi := jr 45
    radius := jdiv width (jr 4)
    perspective := jr 0
    projection_center_x := jdiv width (jr 2)
    projection_center_y := jdiv height (jr 2)
    scaleProjected := jr 0
    xProjected := jr 0
    yProjected := jr 0 }

/-- `SlantedCircleDot.update`: `this.theta += .01`. -/
def SlantedCircleDot.update (o : SlantedCircleDot) : SlantedCircleDot :=
  { o with theta := jadd o.theta (jr 0.01) }

/-- `SlantedCircleDot.project`:
`x = width / 3 * sin(phi) * cos(theta)`;
`y = height / 2 * sin(phi)`;
`z = width / 3 * sin(phi) * sin(theta) + width / 3`;
`perspective = width * .8`;
`scaleProjected = perspective / (perspective + z)`;
`xProjected = x * scaleProjected + projection_center_x`;
`yProjected = y * scaleProjected + projection_center_y / 2`  (note the
extra halving of the y-center, absent for x). -/
def SlantedCircleDot.project (o : SlantedCircleDot) : SlantedCircleDot :=
  let x := jmul (jmul (jdiv o.width (jr 3)) (jsin o.phi)) (jcos o.theta)
  let y := jmul (jdiv o.height (jr 2)) (jsin o.phi)
  let z := jadd (jmul (jmul (jdiv o.width (jr 3)) (jsin o.phi)) (jsin o.theta))
      (jdiv o.width (jr 3))
  let perspective := jmul o.width (jr 0.8)
  let scaleProjected := jdiv perspective (jadd perspective z)
  { o with
    x := x
    y := y
    z := z
    perspective := perspective
    scaleProjected := scaleProjected
    xProjected := jadd (jmul x scaleProjected) o.projection_center_x
    yProjected := jadd (jmul y scaleProjected)
      (jdiv o.projection_center_y (jr 2)) }

/-- `SlantedCircleDot.draw` calls `this.project()`, sets the context's
`globalAlpha` (external canvas state), and rasterizes an arc (external);
only the `project` state effect is modelled. -/
def SlantedCircleDot.draw (o : SlantedCircleDot) : SlantedCircleDot :=
  o.project

/-- `RenderObject.resizeUpdate`, inherited unchanged by `SlantedCircleDot`
(`theta`, `phi`, `radius` and the projection outputs are untouched). -/
def SlantedCircleDot.resizeUpdate (o : SlantedCircleDot)
    (height width : JSNum) (r1 r2 : ℝ) : SlantedCircleDot :=
  { o with
    height := height
    width := width
    x := jmul (jr r1) width
    y := jmul (jr r2) height
    perspective := jmul width (jr 0.8)
    projection_center_x := jdiv width (jr 2)
    projection_center_y := jdiv height (jr 2) }

/-! ## `GlobeDot` (extends `RenderObject`)

Constructor overwrites `x`, `y`, `z` with centered random positions, sets
the perspective fields, zeroes the projection outputs, and samples
`theta = Math.random() * 2 * Math.PI`,
`phi = Math.acos((Math.random() * 2) - 1)`. -/

structure GlobeDot where
  x : JSNum
  y : JSNum
  z : JSNum
  size : JSNum
  height : JSNum
  width : JSNum
  perspective : JSNum
  projection_center_x : JSNum
  projection_center_y : JSNum
  scaleProjected : JSNum
  xProjected : JSNum
  yProjected : JSNum
  theta : JSNum
  phi : JSNum

/-- `new GlobeDot(ctx, width, height)`; draws in source order: `r1`, `r2`
for the super-constructor (overwritten), `r3`, `r4`, `r5` for `x`, `y`,
`z`, `r6` for `theta`, `r7` for `phi`. -/
def GlobeDot.new (width height : JSNum) (_r1 _r2 r3 r4 r5 r6 r7 : ℝ) :
    GlobeDot :=
  { x := jmul (jsub (jr r3) (jr 0.5)) width
    y := jmul (jsub (jr r4) (jr 0.5)) height
    z := jmul (jsub (jr r5) (jr 0.5)) height
    size := jr 5
    height := height
    width := width
    perspective := jmul width (jr 0.8)
    projection_center_x := jdiv width (jr 2)
    projection_center_y := jdiv height (jr 2)
    scaleProjected := jr 0
    xProjected := jr 0
    yProjected := jr 0
    theta := jmul (jmul (jr r6) (jr 2)) (jr Real.pi)
    phi := jacos (jsub (jmul (jr r7) (jr 2)) (jr 1)) }

/-- `GlobeDot.update`: `this.theta += .01`. -/
def GlobeDot.update (o : GlobeDot) : GlobeDot :=
  { o with theta := jadd o.theta (jr 0.01) }

/-- `GlobeDot.project`:
`x = width / 3 * sin(phi) * cos(theta)`;
`y = width / 3 * cos(phi)`;
`z = width / 3 * sin(phi) * sin(theta) + width / 3`;
`perspective = width * 0.8`;
`scaleProjected = perspective / (perspective + z)`;
`xProjected = x * scaleProjected + projection_center_x`;
`yProjected = y * scaleProjected + projection_center_y`  (full y-center,
no halving, unlike `SlantedCircleDot`). -/
def GlobeDot.project (o : GlobeDot) : GlobeDot :=
  let x := jmul (jmul (jdiv o.width (jr 3)) (jsin o.phi)) (jcos o.theta)
  let y := jmul (jdiv o.width (jr 3)) (jcos o.phi)
  let z := jadd (jmul (jmul (jdiv o.width (jr 3)) (jsin o.phi)) (jsin o.theta))
      (jdiv o.width (jr 3))
  let perspective := jmul o.width (jr 0.8)
  let scaleProjected := jdiv perspective (jadd perspective z)
  { o with
    x := x
    y := y
    z := z
    perspective := perspective
    scaleProjected := scaleProjected
    xProjected := jadd (jmul x scaleProjected) o.projection_center_x
    yProjected := jadd (jmul y scaleProjected) o.projection_center_y }

/-- `GlobeDot.draw` calls `this.project()`, sets `globalAlpha` and blits
the pre-rendered particle sprite (external canvas effects); only the
`project` state effect is modelled. -/
def GlobeDot.draw (o : GlobeDot) : GlobeDot :=
  o.project

/-- `RenderObject.resizeUpdate`, inherited unchanged by `GlobeDot`
(`theta`, `phi`, `z` and the projection outputs are untouched). -/
def GlobeDot.resizeUpdate (o : GlobeDot) (height width : JSNum)
    (r1 r2 : ℝ) : GlobeDot :=
  { o with
    height := height
    width := width
    x := jmul (jr r1) width
    y := jmul (jr r2) height
    perspective := jmul width (jr 0.8)
    projection_center_x := jdiv width (jr 2)
    projection_center_y := jdiv height (jr 2) }

/-! ## Base `RenderObject`

The base variant keeps the randomized position from its constructor; its
`draw` is a plain `fillRect` (external) with no `project` step.  The 3d
fields do not exist until `resizeUpdate` assigns them. -/

structure RenderObject where
  x : JSNum
  y : JSNum
  size : JSNum
  height : JSNum
  width : JSNum
  perspective : JSNum
  projection_center_x : JSNum
  projection_center_y : JSNum

/-- `new RenderObject(ctx, width, height)`: `x = Math.random() * width`,
`y = Math.random() * height`, `size = 5`. -/
def RenderObject.new (width height : JSNum) (r1 r2 : ℝ) : RenderObject :=
  { x := jmul (jr r1) width
    y := jmul (jr r2) height
    size := jr 5
    height := height
    width := width
    perspective := none
    projection_center_x := none
    projection_center_y := none }

/-- `RenderObject.update` is a no-op. -/
def RenderObject.update (o : RenderObject) : RenderObject := o

/-- `RenderObject.draw` only rasterizes (external); no state effect. -/
def RenderObject.draw (o : RenderObject) : RenderObject := o

/-- `RenderObject.resizeUpdate(height, width)`: reassigns `height`,
`width`, re-randomizes `x`, `y`, and sets the 3d fields. -/
def RenderObject.resizeUpdate (o : RenderObject) (height width : JSNum)
    (r1 r2 : ℝ) : RenderObject :=
  { o with
    height := height
    width := width
    x := jmul (jr r1) width
    y := jmul (jr r2) height
    perspective := jmul width (jr 0.8)
    projection_center_x := jdiv width (jr 2)
    projection_center_y := jdiv height (jr 2) }

/-! ## `CanvasScene`

The worker's `onmessage` handler constructs the scene with the `GlobeDot`
class (`new CanvasScene(canvas, evt.data.renderObjectCount, GlobeDot)`),
so the scene's collection is modelled as a list of `GlobeDot`.

The constructor does NOT set `this.width` / `this.height`: they are
`undefined` (`none`) until the first `resize` call.  The canvas element's
buffer dimensions exist from the start (the transferred canvas has some
initial size, taken as constructor inputs); `ctx.scale` accumulates a
transform scale factor.  The particle-sprite pre-draw is an external
canvas effect. -/

structure CanvasScene where
  lastDrawTime : ℝ
  fps : ℤ
  canvasWidth : ℝ
  canvasHeight : ℝ
  ctxScale : ℝ
  width : JSNum
  height : JSNum
  renderObjectCount : ℕ
  renderObjects : List GlobeDot

/-- `new CanvasScene(canvas, renderObjectCount, GlobeDot)`: zeroes the
timing state, keeps the canvas buffer at its incoming size `cw × ch`,
leaves `width` / `height` unset (`undefined`), and starts with an empty
`renderObjects` array. -/
def CanvasScene.new (cw ch : ℝ) (renderObjectCount : ℕ) : CanvasScene :=
  { lastDrawTime := 0
    fps := 0
    canvasWidth := cw
    canvasHeight := ch
    ctxScale := 1
    width := none
    height := none
    renderObjectCount := renderObjectCount
    renderObjects := [] }

/-- `CanvasScene.init`: `let i = this.renderObjectCount; while (i--)
this.renderObjects.push(new this.RenderObjectClass(this.ctx, this.width,
this.height))` — appends `renderObjectCount` freshly constructed objects
to the existing array (it is not cleared first).  `rand i k` is the k-th
`Math.random()` draw of the i-th constructed object. -/
def CanvasScene.init (s : CanvasScene) (rand : ℕ → ℕ → ℝ) : CanvasScene :=
  { s with
    renderObjects := s.renderObjects ++
      (List.range s.renderObjectCount).map (fun i =>
        GlobeDot.new s.width s.height
          (rand i 0) (rand i 1) (rand i 2) (rand i 3) (rand i 4)
          (rand i 5) (rand i 6)) }

/-- `CanvasScene.update`: calls `update()` on every render object. -/
def CanvasScene.update (s : CanvasScene) : CanvasScene :=
  { s with renderObjects := s.renderObjects.map GlobeDot.update }

/-- `CanvasScene.draw`: calls `draw()` on every render object in
collection order (rasterization external, `project` state effect kept). -/
def CanvasScene.draw (s : CanvasScene) : CanvasScene :=
  { s with renderObjects := s.renderObjects.map GlobeDot.draw }

/-- One frame tick, `CanvasScene.animate`, at timestamp `now`
(`performance.now()`): computes `fps = ~~(1000 / (now - lastDrawTime))`
against the PREVIOUS stored timestamp, stores `now`, reschedules itself
(external), then runs `update`, `clear` (external canvas wipe), `draw`,
and `drawFps` (external text overlay). -/
def CanvasScene.animate (s : CanvasScene) (now : ℝ) : CanvasScene :=
  let s1 := { s with
    fps := jsTrunc (1000 / (now - s.lastDrawTime))
    lastDrawTime := now }
  s1.update.draw

/-- `CanvasScene.resize(height, width, devicePixelRatio)`: stores the new
logical viewport; if `devicePixelRatio > 1` the physical buffer is the
scaled size and `ctx.scale` multiplies the context transform, else the
buffer is set to the logical size; finally every existing object gets
`resizeUpdate(this.height, this.width)` (objects repositioned in place,
never removed or recreated). -/
def CanvasScene.resize (s : CanvasScene) (height width devicePixelRatio : ℝ)
    (rand : ℕ → ℕ → ℝ) : CanvasScene :=
  let s1 := { s with width := some width, height := some height }
  let s2 :=
    if devicePixelRatio > 1 then
      { s1 with
        canvasWidth := width * devicePixelRatio
        canvasHeight := height * devicePixelRatio
        ctxScale := s1.ctxScale * devicePixelRatio }
    else
      { s1 with canvasWidth := width, canvasHeight := height }
  { s2 with
    renderObjects := s2.renderObjects.mapIdx (fun i o =>
      o.resizeUpdate (some height) (some width) (rand i 0) (rand i 1)) }

/-- `CanvasScene.start`: calls `this.init()` and schedules the first
`animate` tick (scheduling external). -/
def CanvasScene.start (s : CanvasScene) (rand : ℕ → ℕ → ℝ) : CanvasScene :=
  s.init rand

/-! ## Worker message handler

`let canvasScene = null;` then `onmessage` dispatches on `evt.data.type`.
Invoking `canvasScene.start()` / `canvasScene.resize(...)` while
`canvasScene` is still `null` throws a `TypeError` (null-dereference
fault); the uncaught exception leaves the module-level reference
unchanged and the worker keeps processing later messages. -/

inductive WorkerFault where
  | nullDeref
deriving DecidableEq

inductive WorkerMsg where
  | msgInit (cw ch : ℝ) (renderObjectCount : ℕ)
  | msgStart
  | msgResize (innerHeight innerWidth devicePixelRatio : ℝ)

/-- Is this an INIT message? -/
def WorkerMsg.isInit : WorkerMsg → Bool
  | .msgInit _ _ _ => true
  | _ => false

/-- One `onmessage` invocation: INIT constructs a fresh scene; START and
RESIZE dereference the stored scene, faulting when it is `null`. -/
def handleMessage (st : Option CanvasScene) (m : WorkerMsg)
    (rand : ℕ → ℕ → ℝ) : Except WorkerFault (Option CanvasScene) :=
  match m with
  | .msgInit cw ch count => .ok (some (CanvasScene.new cw ch count))
  | .msgStart =>
      match st with
      | none => .error .nullDeref
      | some s => .ok (some (s.start rand))
  | .msgResize h w dpr =>
      match st with
      | none => .error .nullDeref
      | some s => .ok (some (s.resize h w dpr rand))

/-- Process a message sequence: an uncaught fault leaves the stored scene
reference unchanged and the worker continues with the next message. -/
def processMessages (st : Option CanvasScene) (ms : List WorkerMsg)
    (rand : ℕ → ℕ → ℝ) : Option CanvasScene :=
  ms.foldl (fun st m =>
    match handleMessage st m rand with
    | .ok st' => st'
    | .error _ => st) st

/-! ## Helper lemmas -/

/-- Iterating `CircleDot.update` adds `n` to a finite `angle`. -/
theorem circle_update_iterate (n : ℕ) (o : CircleDot) (a : ℝ)
    (h : o.angle = some a) :
    (CircleDot.update)^[n] o = { o with angle := some (a + n) } := by
  induction n with
  | zero => simp only [Function.iterate_zero, id_eq, Nat.cast_zero, add_zero, ← h]
  | succ k ih =>
      rw [Function.iterate_succ_apply', ih, CircleDot.update]
      simp only [jr, jadd_some]
      push_cast
      ring_nf

/-- Iterating `SlantedCircleDot.update` adds `0.01 * n` to a finite `theta`. -/
theorem slanted_update_iterate (n : ℕ) (o : SlantedCircleDot) (t : ℝ)
    (h : o.theta = some t) :
    (SlantedCircleDot.update)^[n] o = { o with theta := some (t + 0.01 * n) } := by
  induction n with
  | zero => simp only [Function.iterate_zero, id_eq, Nat.cast_zero, mul_zero, add_zero, ← h]
  | succ k ih =>
      rw [Function.iterate_succ_apply', ih, SlantedCircleDot.update]
      simp only [jr, jadd_some]
      push_cast
      ring_nf

/-- Iterating `GlobeDot.update` adds `0.01 * n` to a finite `theta`. -/
theorem globe_update_iterate (n : ℕ) (o : GlobeDot) (t : ℝ)
    (h : o.theta = some t) :
    (GlobeDot.update)^[n] o = { o with theta := some (t + 0.01 * n) } := by
  induction n with
  | zero => simp only [Function.iterate_zero, id_eq, Nat.cast_zero, mul_zero, add_zero, ← h]
  | succ k ih =>
      rw [Function.iterate_succ_apply', ih, GlobeDot.update]
      simp only [jr, jadd_some]
      push_cast
      ring_nf

/-- The depth coordinate `z = w/3 * sin(phi) * sin(theta) + w/3` is
nonnegative and the perspective denominator `w * 0.8 + z` is positive for
any positive viewport width. -/
theorem slanted_denom_pos (w p t : ℝ) (hw : 0 < w) :
    0 ≤ w / 3 * Real.sin p * Real.sin t + w / 3 ∧
    0 < w * 0.8 + (w / 3 * Real.sin p * Real.sin t + w / 3) := by
  have hs1 := Real.neg_one_le_sin p
  have hs2 := Real.sin_le_one p
  have hs3 := Real.neg_one_le_sin t
  have hs4 := Real.sin_le_one t
  have key : 0 ≤ 1 + Real.sin p * Real.sin t := by nlinarith
  have hw3 : (0:ℝ) ≤ w / 3 := by linarith
  constructor <;> nlinarith [mul_nonneg hw3 key]

/-- Evaluating `SlantedCircleDot.project` on finite state. -/
theorem slanted_project_eval (o : SlantedCircleDot) (w h t p cx cy : ℝ)
    (hwid : o.width = some w) (hhei : o.height = some h)
    (hth : o.theta = some t) (hphi : o.phi = some p)
    (hcx : o.projection_center_x = some cx)
    (hcy : o.projection_center_y = some cy)
    (hd : w * 0.8 + (w / 3 * Real.sin p * Real.sin t + w / 3) ≠ 0) :
    (o.project).x = some (w / 3 * Real.sin p * Real.cos t) ∧
    (o.project).y = some (h / 2 * Real.sin p) ∧
    (o.project).z = some (w / 3 * Real.sin p * Real.sin t + w / 3) ∧
    (o.project).perspective = some (w * 0.8) ∧
    (o.project).scaleProjected =
      some (w * 0.8 / (w * 0.8 + (w / 3 * Real.sin p * Real.sin t + w / 3))) ∧
    (o.project).xProjected =
      some (w / 3 * Real.sin p * Real.cos t *
        (w * 0.8 / (w * 0.8 + (w / 3 * Real.sin p * Real.sin t + w / 3))) + cx) ∧
    (o.project).yProjected =
      some (h / 2 * Real.sin p *
        (w * 0.8 / (w * 0.8 + (w / 3 * Real.sin p * Real.sin t + w / 3))) + cy / 2) := by
  have h3 : jdiv (some w) (some (3:ℝ)) = some (w / 3) :=
    jdiv_some_of_ne w 3 (by norm_num)
  have h2 : jdiv (some h) (some (2:ℝ)) = some (h / 2) :=
    jdiv_some_of_ne h 2 (by norm_num)
  have hcy2 : jdiv (some cy) (some (2:ℝ)) = some (cy / 2) :=
    jdiv_some_of_ne cy 2 (by norm_num)
  have hsc : jdiv (some (w * 0.8))
      (some (w * 0.8 + (w / 3 * Real.sin p * Real.sin t + w / 3))) =
      some (w * 0.8 / (w * 0.8 + (w / 3 * Real.sin p * Real.sin t + w / 3))) :=
    jdiv_some_of_ne _ _ hd
  refine ⟨?_, ?_, ?_, ?_, ?_, ?_, ?_⟩ <;>
    simp [SlantedCircleDot.project, hwid, hhei, hth, hphi, hcx, hcy,
      h3, h2, hcy2, hsc, jr]

/-- Evaluating `GlobeDot.project` on finite state. -/
theorem globe_project_eval (o : GlobeDot) (w t p cx cy : ℝ)
    (hwid : o.width = some w)
    (hth : o.theta = some t) (hphi : o.phi = some p)
    (hcx : o.projection_center_x = some cx)
    (hcy : o.projection_center_y = some cy)
    (hd : w * 0.8 + (w / 3 * Real.sin p * Real.sin t + w / 3) ≠ 0) :
    (o.project).x = some (w / 3 * Real.sin p * Real.cos t) ∧
    (o.project).y = some (w / 3 * Real.cos p) ∧
    (o.project).z = some (w / 3 * Real.sin p * Real.sin t + w / 3) ∧
    (o.project).perspective = some (w * 0.8) ∧
    (o.project).scaleProjected =
      some (w * 0.8 / (w * 0.8 + (w / 3 * Real.sin p * Real.sin t + w / 3))) ∧
    (o.project).xProjected =
      some (w / 3 * Real.sin p * Real.cos t *
        (w * 0.8 / (w * 0.8 + (w / 3 * Real.sin p * Real.sin t + w / 3))) + cx) ∧
    (o.project).yProjected =
      some (w / 3 * Real.cos p *
        (w * 0.8 / (w * 0.8 + (w / 3 * Real.sin p * Real.sin t + w / 3))) + cy) := by
  have h3 : jdiv (some w) (some (3:ℝ)) = some (w / 3) :=
    jdiv_some_of_ne w 3 (by norm_num)
  have hsc : jdiv (some (w * 0.8))
      (some (w * 0.8 + (w / 3 * Real.sin p * Real.sin t + w / 3))) =
      some (w * 0.8 / (w * 0.8 + (w / 3 * Real.sin p * Real.sin t + w / 3))) :=
    jdiv_some_of_ne _ _ hd
  refine ⟨?_, ?_, ?_, ?_, ?_, ?_, ?_⟩ <;>
    simp [GlobeDot.project, hwid, hth, hphi, hcx, hcy, h3, hsc, jr]

/-! ## Claim theorems -/

/-- C6: calling `resize(h, w, 1)` twice with identical arguments yields the
same stored viewport width/height and canvas buffer dimensions (and context
scale) as calling it once, and neither call changes the number of render
objects: objects are repositioned in place via `resizeUpdate`, never
removed or recreated. -/
theorem resize_twice_idempotent_on_viewport (s : CanvasScene) (h w : ℝ)
    (rand1 rand2 : ℕ → ℕ → ℝ) :
    ((s.resize h w 1 rand1).resize h w 1 rand2).width =
      (s.resize h w 1 rand1).width ∧
    ((s.resize h w 1 rand1).resize h w 1 rand2).height =
      (s.resize h w 1 rand1).height ∧
    ((s.resize h w 1 rand1).resize h w 1 rand2).canvasWidth =
      (s.resize h w 1 rand1).canvasWidth ∧
    ((s.resize h w 1 rand1).resize h w 1 rand2).canvasHeight =
      (s.resize h w 1 rand1).canvasHeight ∧
    ((s.resize h w 1 rand1).resize h w 1 rand2).ctxScale =
      (s.resize h w 1 rand1).ctxScale ∧
    (s.resize h w 1 rand1).renderObjects.length = s.renderObjects.length ∧
    ((s.resize h w 1 rand1).resize h w 1 rand2).renderObjects.length =
      s.renderObjects.length := by
  norm_num [CanvasScene.resize, List.length_mapIdx]

/-- C9: `CanvasScene.init` appends `renderObjectCount` newly constructed
objects to the existing `renderObjects` array without clearing it, so a
scene holding `k` objects holds `k + renderObjectCount` after `init()`;
consequently processing START twice on a freshly constructed scene leaves
`2 * renderObjectCount` objects. -/
theorem init_appends_render_objects (s : CanvasScene) (cw ch : ℝ) (n : ℕ)
    (rand rand1 rand2 : ℕ → ℕ → ℝ) :
    (s.init rand).renderObjects.length =
      s.renderObjects.length + s.renderObjectCount ∧
    (((CanvasScene.new cw ch n).start rand1).start rand2).renderObjects.length =
      2 * n := by
  constructor
  · simp [CanvasScene.init]
  · simp [CanvasScene.start, CanvasScene.init, CanvasScene.new, two_mul]

/-- C7: each frame tick computes `fps = ⌊1000 / deltaMs⌋` where `deltaMs`
is the current timestamp minus the previously stored one (the `~~`
truncation agrees with `floor` since the quotient is nonnegative), and
stores the current timestamp; at `t0 = 0`, `t1 = 16` the witness below
evaluates this to `62`. -/
theorem animate_fps_floor (s : CanvasScene) (now : ℝ)
    (h : s.lastDrawTime < now) :
    (s.animate now).fps = ⌊1000 / (now - s.lastDrawTime)⌋ ∧
    (s.animate now).lastDrawTime = now := by
  have hd : (0:ℝ) < now - s.lastDrawTime := by linarith
  have hq : (0:ℝ) ≤ 1000 / (now - s.lastDrawTime) := by positivity
  constructor
  · simp [CanvasScene.animate, CanvasScene.update, CanvasScene.draw,
      jsTrunc_of_nonneg hq]
  · simp [CanvasScene.animate, CanvasScene.update, CanvasScene.draw]

/-- Witness for C7: consecutive timestamps 0 ms and 16 ms give fps 62. -/
theorem animate_fps_floor_witness :
    (CanvasScene.new 0 0 0).lastDrawTime < 16 ∧
    ((CanvasScene.new 0 0 0).animate 16).fps = 62 := by
  have h : (CanvasScene.new 0 0 0).lastDrawTime < 16 := by
    norm_num [CanvasScene.new]
  refine ⟨h, ?_⟩
  rw [(animate_fps_floor (CanvasScene.new 0 0 0) 16 h).1]
  norm_num [CanvasScene.new, Int.floor_eq_iff]

/-- C3 counterexample: a `CircleDot` constructed at width 400 has orbit
radius 100; after `resizeUpdate(600, 800)` the radius is still 100, not
the claimed `800 / 4 = 200` — the radius does not reflect the new width. -/
theorem circleDot_radius_stale_after_resize :
    ((CircleDot.new (some 400) (some 300) 0 0 0).resizeUpdate
      (some 600) (some 800) 0 0).radius = some 100 ∧
    ¬ ((CircleDot.new (some 400) (some 300) 0 0 0).resizeUpdate
      (some 600) (some 800) 0 0).radius = some ((800:ℝ) / 4) := by
  constructor
  · norm_num [CircleDot.new, CircleDot.resizeUpdate, jdiv, jr]
  · norm_num [CircleDot.new, CircleDot.resizeUpdate, jdiv, jr,
      Option.some.injEq]

/-- C3 (amended): for every render-object variant, `resizeUpdate(newHeight,
newWidth)` recomputes the fields assigned by the inherited base
implementation — `width`, `height`, `perspective = 0.8 * newWidth`,
`projection_center_x = newWidth / 2`, `projection_center_y = newHeight / 2`
— from the new dimensions, and re-randomizes the position; but a
`CircleDot`'s orbit radius (width/4 at construction time) is NOT
recomputed: `resizeUpdate` leaves `radius` (and `angle`) unchanged, so the
radius keeps reflecting the construction-time width, not the new one. -/
theorem resizeUpdate_recomputes_base_fields_only (H W r1 r2 : ℝ)
    (ob : RenderObject) (oc : CircleDot) (os : SlantedCircleDot)
    (og : GlobeDot) :
    (ob.resizeUpdate (some H) (some W) r1 r2).height = some H ∧
    (ob.resizeUpdate (some H) (some W) r1 r2).width = some W ∧
    (ob.resizeUpdate (some H) (some W) r1 r2).x = some (r1 * W) ∧
    (ob.resizeUpdate (some H) (some W) r1 r2).y = some (r2 * H) ∧
    (ob.resizeUpdate (some H) (some W) r1 r2).perspective = some (W * 0.8) ∧
    (ob.resizeUpdate (some H) (some W) r1 r2).projection_center_x = some (W / 2) ∧
    (ob.resizeUpdate (some H) (some W) r1 r2).projection_center_y = some (H / 2) ∧
    (oc.resizeUpdate (some H) (some W) r1 r2).height = some H ∧
    (oc.resizeUpdate (some H) (some W) r1 r2).width = some W ∧
    (oc.resizeUpdate (some H) (some W) r1 r2).x = some (r1 * W) ∧
    (oc.resizeUpdate (some H) (some W) r1 r2).y = some (r2 * H) ∧
    (oc.resizeUpdate (some H) (some W) r1 r2).perspective = some (W * 0.8) ∧
    (oc.resizeUpdate (some H) (some W) r1 r2).projection_center_x = some (W / 2) ∧
    (oc.resizeUpdate (some H) (some W) r1 r2).projection_center_y = some (H / 2) ∧
    (oc.resizeUpdate (some H) (some W) r1 r2).radius = oc.radius ∧
    (oc.resizeUpdate (some H) (some W) r1 r2).angle = oc.angle ∧
    (os.resizeUpdate (some H) (some W) r1 r2).height = some H ∧
    (os.resizeUpdate (some H) (some W) r1 r2).width = some W ∧
    (os.resizeUpdate (some H) (some W) r1 r2).x = some (r1 * W) ∧
    (os.resizeUpdate (some H) (some W) r1 r2).y = some (r2 * H) ∧
    (os.resizeUpdate (some H) (some W) r1 r2).perspective = some (W * 0.8) ∧
    (os.resizeUpdate (some H) (some W) r1 r2).projection_center_x = some (W / 2) ∧
    (os.resizeUpdate (some H) (some W) r1 r2).projection_center_y = some (H / 2) ∧
    (os.resizeUpdate (some H) (some W) r1 r2).radius = os.radius ∧
    (og.resizeUpdate (some H) (some W) r1 r2).height = some H ∧
    (og.resizeUpdate (some H) (some W) r1 r2).width = some W ∧
    (og.resizeUpdate (some H) (some W) r1 r2).x = some (r1 * W) ∧
    (og.resizeUpdate (some H) (some W) r1 r2).y = some (r2 * H) ∧
    (og.resizeUpdate (some H) (some W) r1 r2).perspective = some (W * 0.8) ∧
    (og.resizeUpdate (some H) (some W) r1 r2).projection_center_x = some (W / 2) ∧
    (og.resizeUpdate (some H) (some W) r1 r2).projection_center_y = some (H / 2) := by
  refine ⟨?_, ?_, ?_, ?_, ?_, ?_, ?_, ?_, ?_, ?_, ?_, ?_, ?_, ?_, ?_, ?_,
    ?_, ?_, ?_, ?_, ?_, ?_, ?_, ?_, ?_, ?_, ?_, ?_, ?_, ?_, ?_⟩ <;>
    simp [RenderObject.resizeUpdate, CircleDot.resizeUpdate,
      SlantedCircleDot.resizeUpdate, GlobeDot.resizeUpdate, jr,
      jdiv_some_of_ne _ (2:ℝ) (by norm_num)]

/-- A START or RESIZE arriving while the scene reference is still null
faults with a null dereference. -/
theorem handleMessage_none_fault (m : WorkerMsg) (rand : ℕ → ℕ → ℝ)
    (h : m.isInit = false) :
    handleMessage none m rand = .error WorkerFault.nullDeref := by
  cases m with
  | msgInit cw ch count => simp [WorkerMsg.isInit] at h
  | msgStart => rfl
  | msgResize ih iw dpr => rfl

/-- C8: in any message sequence with no INIT, every START/RESIZE faults on
the absent scene and the stored scene reference stays null; once an INIT
has constructed a scene, START and RESIZE dispatch to it. -/
theorem start_resize_before_init_fault (ms : List WorkerMsg)
    (rand : ℕ → ℕ → ℝ) (hms : ∀ m ∈ ms, m.isInit = false) :
    processMessages none ms rand = none ∧
    (∀ m ∈ ms, handleMessage none m rand = .error WorkerFault.nullDeref) ∧
    (∀ s : CanvasScene, handleMessage (some s) WorkerMsg.msgStart rand =
      .ok (some (s.start rand))) ∧
    (∀ (s : CanvasScene) (ih iw dpr : ℝ),
      handleMessage (some s) (WorkerMsg.msgResize ih iw dpr) rand =
        .ok (some (s.resize ih iw dpr rand))) := by
  refine ⟨?_, fun m hm => handleMessage_none_fault m rand (hms m hm),
    fun s => rfl, fun s ih iw dpr => rfl⟩
  induction ms with
  | nil => rfl
  | cons m rest ihrec =>
      have h1 : handleMessage none m rand = .error WorkerFault.nullDeref :=
        handleMessage_none_fault m rand (hms m (by simp))
      have : processMessages none (m :: rest) rand =
          processMessages none rest rand := by
        simp [processMessages, h1]
      rw [this]
      exact ihrec (fun m' hm' => hms m' (by simp [hm']))

/-- Witness for C8: the singleton sequence `[START]` leaves the scene
reference null. -/
theorem start_resize_before_init_fault_witness :
    processMessages none [WorkerMsg.msgStart] (fun _ _ => 0) = none :=
  (start_resize_before_init_fault [WorkerMsg.msgStart] (fun _ _ => 0)
    (by intro m hm; simp at hm; subst hm; rfl)).1

/-- C2: with the two underlying uniform draws `u1, u2 ∈ [0,1)`, the
`GlobeDot` constructor sets `theta = u1 * 2π ∈ [0, 2π)` and
`phi = acos(2*u2 - 1) ∈ [0, π]` with `cos(phi) = 2*u2 - 1`; `update()`
never modifies `phi` (so it is fixed for the object's lifetime) while
`theta` increases by `0.01` per update tick. -/
theorem globeDot_sphere_sampling (w h : JSNum) (r1 r2 r3 r4 r5 u1 u2 : ℝ)
    (hu1 : 0 ≤ u1) (hu1' : u1 < 1) (hu2 : 0 ≤ u2) (hu2' : u2 < 1) :
    (GlobeDot.new w h r1 r2 r3 r4 r5 u1 u2).theta =
      some (u1 * 2 * Real.pi) ∧
    0 ≤ u1 * 2 * Real.pi ∧ u1 * 2 * Real.pi < 2 * Real.pi ∧
    (GlobeDot.new w h r1 r2 r3 r4 r5 u1 u2).phi =
      some (Real.arccos (2 * u2 - 1)) ∧
    0 ≤ Real.arccos (2 * u2 - 1) ∧ Real.arccos (2 * u2 - 1) ≤ Real.pi ∧
    Real.cos (Real.arccos (2 * u2 - 1)) = 2 * u2 - 1 ∧
    (∀ o : GlobeDot, (o.update).phi = o.phi) ∧
    (∀ o : GlobeDot, (o.update).theta = jadd o.theta (some (0.01 : ℝ))) := by
  have hpi := Real.pi_pos
  refine ⟨?_, ?_, ?_, ?_, Real.arccos_nonneg _, Real.arccos_le_pi _, ?_,
    fun o => rfl, fun o => rfl⟩
  · simp [GlobeDot.new, jr]
  · positivity
  · nlinarith
  · simp [GlobeDot.new, jr]
    ring_nf
  · exact Real.cos_arccos (by linarith) (by linarith)

/-- Witness for C2: the draws `u1 = u2 = 1/2` give `theta = π` and
`cos(phi) = 0`. -/
theorem globeDot_sphere_sampling_witness :
    (GlobeDot.new (some 1) (some 1) 0 0 0 0 0 (1/2) (1/2)).theta =
      some ((1/2) * 2 * Real.pi) ∧
    Real.cos (Real.arccos (2 * (1/2) - 1)) = 2 * (1/2) - 1 := by
  have h := globeDot_sphere_sampling (some 1) (some 1) 0 0 0 0 0 (1/2) (1/2)
    (by norm_num) (by norm_num) (by norm_num) (by norm_num)
  exact ⟨h.1, h.2.2.2.2.2.2.1⟩

/-- C4: for a `CircleDot` with positive viewport dimensions and any
starting angle `a0`, the screen coordinates from `project()` after exactly
360 `update()` calls equal those at tick 0 (exactly, in the real-number
model): `update` adds 1 degree per tick and `project` computes
`x = radius * cos(angle*π/180) + width/2`,
`y = radius * sin(angle*π/180) + height/2`, which are 360-periodic. -/
theorem circleDot_360_periodic (o : CircleDot) (w h a0 : ℝ)
    (hw : 0 < w) (hh : 0 < h)
    (hwid : o.width = some w) (hhei : o.height = some h)
    (hang : o.angle = some a0) :
    (((CircleDot.update)^[360] o).project).x = (o.project).x ∧
    (((CircleDot.update)^[360] o).project).y = (o.project).y := by
  have h360 : (CircleDot.update)^[360] o = { o with angle := some (a0 + 360) } := by
    rw [circle_update_iterate 360 o a0 hang]
    norm_num
  have hcos : Real.cos ((a0 + 360) * Real.pi / 180) =
      Real.cos (a0 * Real.pi / 180) := by
    have harg : (a0 + 360) * Real.pi / 180 = a0 * Real.pi / 180 + 2 * Real.pi := by
      ring
    rw [harg, Real.cos_add_two_pi]
  have hsin : Real.sin ((a0 + 360) * Real.pi / 180) =
      Real.sin (a0 * Real.pi / 180) := by
    have harg : (a0 + 360) * Real.pi / 180 = a0 * Real.pi / 180 + 2 * Real.pi := by
      ring
    rw [harg, Real.sin_add_two_pi]
  have hpi180 : ∀ a : ℝ, jdiv (jmul (some a) (jr Real.pi)) (jr 180) =
      some (a * Real.pi / 180) := fun a =>
    jdiv_some_of_ne (a * Real.pi) 180 (by norm_num)
  constructor <;>
    simp [h360, CircleDot.project, hang, hpi180, hcos, hsin]

/-- Witness for C4: a concrete `CircleDot` at width 400, height 300,
angle 0. -/
theorem circleDot_360_periodic_witness :
    (((CircleDot.update)^[360] (CircleDot.new (some 400) (some 300) 0 0 0)).project).x =
      ((CircleDot.new (some 400) (some 300) 0 0 0).project).x := by
  exact (circleDot_360_periodic (CircleDot.new (some 400) (some 300) 0 0 0)
    400 300 0 (by norm_num) (by norm_num)
    (by simp [CircleDot.new]) (by simp [CircleDot.new])
    (by norm_num [CircleDot.new, jr])).1

/-- C1: for every `SlantedCircleDot` with viewport width `w` and height
`h`, `project()` computes the 3D point with `phi = 45` fed directly (as a
radian value) to `sin`, sets `perspective = 0.8 * w`,
`scaleProjected = perspective / (perspective + z)`,
`xProjected = x * scaleProjected + w/2`, and
`yProjected = y * scaleProjected + (h/2)/2`: the y-center offset is half
the stored `projection_center_y` while the x-center offset is the full
`projection_center_x`; moreover the constructor stores `phi = 45`,
`projection_center_x = w/2`, `projection_center_y = h/2`, and `update`
never changes `phi`. -/
theorem slantedCircleDot_project_spec (o : SlantedCircleDot) (w h t : ℝ)
    (hw : 0 < w)
    (hwid : o.width = some w) (hhei : o.height = some h)
    (hphi : o.phi = some 45)
    (hcx : o.projection_center_x = some (w / 2))
    (hcy : o.projection_center_y = some (h / 2))
    (hth : o.theta = some t) :
    (o.project).x = some (w / 3 * Real.sin 45 * Real.cos t) ∧
    (o.project).y = some (h / 2 * Real.sin 45) ∧
    (o.project).z = some (w / 3 * Real.sin 45 * Real.sin t + w / 3) ∧
    (o.project).perspective = some (0.8 * w) ∧
    (o.project).scaleProjected =
      some (0.8 * w / (0.8 * w + (w / 3 * Real.sin 45 * Real.sin t + w / 3))) ∧
    (o.project).xProjected =
      some (w / 3 * Real.sin 45 * Real.cos t *
        (0.8 * w / (0.8 * w + (w / 3 * Real.sin 45 * Real.sin t + w / 3))) +
        w / 2) ∧
    (o.project).yProjected =
      some (h / 2 * Real.sin 45 *
        (0.8 * w / (0.8 * w + (w / 3 * Real.sin 45 * Real.sin t + w / 3))) +
        h / 2 / 2) ∧
    (∀ r1 r2 r3 : ℝ,
      (SlantedCircleDot.new (some w) (some h) r1 r2 r3).phi = some 45 ∧
      (SlantedCircleDot.new (some w) (some h) r1 r2 r3).projection_center_x =
        some (w / 2) ∧
      (SlantedCircleDot.new (some w) (some h) r1 r2 r3).projection_center_y =
        some (h / 2)) ∧
    (∀ o' : SlantedCircleDot, (o'.update).phi = o'.phi) := by
  have hdpos := (slanted_denom_pos w 45 t hw).2
  have he := slanted_project_eval o w h t 45 (w / 2) (h / 2)
    hwid hhei hth hphi hcx hcy (ne_of_gt hdpos)
  have hm : w * 0.8 = 0.8 * w := by ring
  refine ⟨he.1, he.2.1, he.2.2.1,
    he.2.2.2.1.trans (congrArg some (by ring)),
    he.2.2.2.2.1.trans (congrArg some (by ring)),
    he.2.2.2.2.2.1.trans (congrArg some (by ring)),
    he.2.2.2.2.2.2.trans (congrArg some (by ring)), ?_, fun o' => rfl⟩
  intro r1 r2 r3
  refine ⟨rfl, ?_, ?_⟩ <;>
    simp [SlantedCircleDot.new, jr, jdiv_some_of_ne _ (2:ℝ) (by norm_num)]

/-- Witness for C1: the freshly constructed `SlantedCircleDot` at
`w = 400`, `h = 300`, all draws 0 (so `theta = 0`). -/
theorem slantedCircleDot_project_spec_witness :
    ((SlantedCircleDot.new (some 400) (some 300) 0 0 0).project).y =
      some ((300:ℝ) / 2 * Real.sin 45) :=
  (slantedCircleDot_project_spec (SlantedCircleDot.new (some 400) (some 300) 0 0 0)
    400 300 0 (by norm_num)
    (by simp [SlantedCircleDot.new]) (by simp [SlantedCircleDot.new]) rfl
    (by norm_num [SlantedCircleDot.new, jr, jdiv])
    (by norm_num [SlantedCircleDot.new, jr, jdiv])
    (by norm_num [SlantedCircleDot.new, jr])).2.1

/-- C5: for each variant constructed with positive viewport dimensions,
after any number `n` of `update()` calls followed by `draw()` (which runs
`project()`), the projected screen coordinates are finite (`some` of a
real); for the 3D variants the perspective division is safe because the
depth `z` is nonnegative, so the denominator `perspective + z` is at least
`0.8 * w` and positive. -/
theorem variant_projected_coords_finite (w h : ℝ) (hw : 0 < w) (hh : 0 < h)
    (r1 r2 r3 r4 r5 r6 r7 : ℝ) (n : ℕ) :
    (∃ xv : ℝ,
      (((CircleDot.update)^[n] (CircleDot.new (some w) (some h) r1 r2 r3)).draw).x =
        some xv) ∧
    (∃ yv : ℝ,
      (((CircleDot.update)^[n] (CircleDot.new (some w) (some h) r1 r2 r3)).draw).y =
        some yv) ∧
    (∃ zv : ℝ,
      (((SlantedCircleDot.update)^[n]
        (SlantedCircleDot.new (some w) (some h) r1 r2 r3)).draw).z = some zv ∧
      0 ≤ zv ∧ 0.8 * w ≤ w * 0.8 + zv ∧ 0 < w * 0.8 + zv) ∧
    (∃ sv : ℝ,
      (((SlantedCircleDot.update)^[n]
        (SlantedCircleDot.new (some w) (some h) r1 r2 r3)).draw).scaleProjected =
        some sv) ∧
    (∃ xv : ℝ,
      (((SlantedCircleDot.update)^[n]
        (SlantedCircleDot.new (some w) (some h) r1 r2 r3)).draw).xProjected =
        some xv) ∧
    (∃ yv : ℝ,
      (((SlantedCircleDot.update)^[n]
        (SlantedCircleDot.new (some w) (some h) r1 r2 r3)).draw).yProjected =
        some yv) ∧
    (∃ zv : ℝ,
      (((GlobeDot.update)^[n]
        (GlobeDot.new (some w) (some h) r1 r2 r3 r4 r5 r6 r7)).draw).z = some zv ∧
      0 ≤ zv ∧ 0.8 * w ≤ w * 0.8 + zv ∧ 0 < w * 0.8 + zv) ∧
    (∃ sv : ℝ,
      (((GlobeDot.update)^[n]
        (GlobeDot.new (some w) (some h) r1 r2 r3 r4 r5 r6 r7)).draw).scaleProjected =
        some sv) ∧
    (∃ xv : ℝ,
      (((GlobeDot.update)^[n]
        (GlobeDot.new (some w) (some h) r1 r2 r3 r4 r5 r6 r7)).draw).xProjected =
        some xv) ∧
    (∃ yv : ℝ,
      (((GlobeDot.update)^[n]
        (GlobeDot.new (some w) (some h) r1 r2 r3 r4 r5 r6 r7)).draw).yProjected =
        some yv) := by
  -- CircleDot after n updates
  have hc : (CircleDot.update)^[n] (CircleDot.new (some w) (some h) r1 r2 r3) =
      { CircleDot.new (some w) (some h) r1 r2 r3 with
        angle := some ((⌊r3 * 360⌋ : ℝ) + n) } :=
    circle_update_iterate n _ _ (by simp [CircleDot.new, jr])
  have j4 : jdiv (some w) (some (4:ℝ)) = some (w / 4) :=
    jdiv_some_of_ne _ _ (by norm_num)
  have j2w : jdiv (some w) (some (2:ℝ)) = some (w / 2) :=
    jdiv_some_of_ne _ _ (by norm_num)
  have j2h : jdiv (some h) (some (2:ℝ)) = some (h / 2) :=
    jdiv_some_of_ne _ _ (by norm_num)
  have j180 : ∀ a : ℝ, jdiv (some a) (some (180:ℝ)) = some (a / 180) :=
    fun a => jdiv_some_of_ne _ _ (by norm_num)
  have hcx : (((CircleDot.update)^[n]
      (CircleDot.new (some w) (some h) r1 r2 r3)).draw).x =
      some (w / 4 * Real.cos (((⌊r3 * 360⌋ : ℝ) + n) * Real.pi / 180) + w / 2) := by
    rw [hc]
    simp [CircleDot.draw, CircleDot.project, CircleDot.new, jr, j4, j2w, j180]
  have hcy : (((CircleDot.update)^[n]
      (CircleDot.new (some w) (some h) r1 r2 r3)).draw).y =
      some (w / 4 * Real.sin (((⌊r3 * 360⌋ : ℝ) + n) * Real.pi / 180) + h / 2) := by
    rw [hc]
    simp [CircleDot.draw, CircleDot.project, CircleDot.new, jr, j4, j2h, j180]
  -- SlantedCircleDot after n updates
  have hs : (SlantedCircleDot.update)^[n]
      (SlantedCircleDot.new (some w) (some h) r1 r2 r3) =
      { SlantedCircleDot.new (some w) (some h) r1 r2 r3 with
        theta := some ((⌊r3 * 360⌋ : ℝ) + 0.01 * n) } :=
    slanted_update_iterate n _ _ (by simp [SlantedCircleDot.new, jr])
  have hsd := slanted_denom_pos w 45 ((⌊r3 * 360⌋ : ℝ) + 0.01 * n) hw
  have hse := slanted_project_eval
    ({ SlantedCircleDot.new (some w) (some h) r1 r2 r3 with
        theta := some ((⌊r3 * 360⌋ : ℝ) + 0.01 * n) })
    w h ((⌊r3 * 360⌋ : ℝ) + 0.01 * n) 45 (w / 2) (h / 2)
    (by simp [SlantedCircleDot.new])
    (by simp [SlantedCircleDot.new])
    rfl rfl
    (by simp [SlantedCircleDot.new, jr, j2w])
    (by simp [SlantedCircleDot.new, jr, j2h])
    (ne_of_gt hsd.2)
  -- GlobeDot after n updates
  have hg : (GlobeDot.update)^[n]
      (GlobeDot.new (some w) (some h) r1 r2 r3 r4 r5 r6 r7) =
      { GlobeDot.new (some w) (some h) r1 r2 r3 r4 r5 r6 r7 with
        theta := some (r6 * 2 * Real.pi + 0.01 * n) } :=
    globe_update_iterate n _ _ (by simp [GlobeDot.new, jr])
  have hgd := slanted_denom_pos w (Real.arccos (r7 * 2 - 1))
    (r6 * 2 * Real.pi + 0.01 * n) hw
  have hge := globe_project_eval
    ({ GlobeDot.new (some w) (some h) r1 r2 r3 r4 r5 r6 r7 with
        theta := some (r6 * 2 * Real.pi + 0.01 * n) })
    w (r6 * 2 * Real.pi + 0.01 * n) (Real.arccos (r7 * 2 - 1)) (w / 2) (h / 2)
    (by simp [GlobeDot.new])
    rfl
    (by simp [GlobeDot.new, jr])
    (by simp [GlobeDot.new, jr, j2w])
    (by simp [GlobeDot.new, jr, j2h])
    (ne_of_gt hgd.2)
  refine ⟨⟨_, hcx⟩, ⟨_, hcy⟩,
    ⟨_, by rw [hs]; exact hse.2.2.1, hsd.1, by linarith [hsd.1], hsd.2⟩,
    ⟨_, by rw [hs]; exact hse.2.2.2.2.1⟩,
    ⟨_, by rw [hs]; exact hse.2.2.2.2.2.1⟩,
    ⟨_, by rw [hs]; exact hse.2.2.2.2.2.2⟩,
    ⟨_, by rw [hg]; exact hge.2.2.1, hgd.1, by linarith [hgd.1], hgd.2⟩,
    ⟨_, by rw [hg]; exact hge.2.2.2.2.1⟩,
    ⟨_, by rw [hg]; exact hge.2.2.2.2.2.1⟩,
    ⟨_, by rw [hg]; exact hge.2.2.2.2.2.2⟩⟩

/-- Witness for C5: concrete viewport 400 × 300, all draws 0, one update. -/
theorem variant_projected_coords_finite_witness :
    (0:ℝ) < 400 ∧ (0:ℝ) < 300 ∧
    (∃ xv : ℝ,
      (((CircleDot.update)^[1] (CircleDot.new (some 400) (some 300) 0 0 0)).draw).x =
        some xv) := by
  refine ⟨by norm_num, by norm_num, ?_⟩
  exact (variant_projected_coords_finite 400 300 (by norm_num) (by norm_num)
    0 0 0 0 0 0 0 1).1

/-- C10: the `CanvasScene` constructor never sets the viewport width and
height, so they exist only after the first `resize`; when START is
processed (after INIT) before any RESIZE, `init` constructs every render
object against undefined dimensions, producing NaN positions, and the
subsequent frame tick runs to completion with every projected coordinate
NaN — the message dispatch succeeds (no fault) and `update`, `draw` and
the fps computation all produce values. -/
theorem start_before_resize_nan_propagation (cw ch : ℝ) (count : ℕ)
    (rand : ℕ → ℕ → ℝ) (t : ℝ) :
    ∃ s : CanvasScene,
      processMessages none
        [WorkerMsg.msgInit cw ch count, WorkerMsg.msgStart] rand = some s ∧
      s.width = none ∧ s.height = none ∧
      s.renderObjects.length = count ∧
      (∀ o ∈ s.renderObjects,
        o.width = none ∧ o.x = none ∧ o.y = none ∧ o.z = none) ∧
      (∀ o ∈ (s.animate t).renderObjects,
        o.x = none ∧ o.y = none ∧ o.z = none ∧
        o.scaleProjected = none ∧ o.xProjected = none ∧ o.yProjected = none) := by
  refine ⟨(CanvasScene.new cw ch count).start rand, rfl, rfl, rfl, ?_, ?_, ?_⟩
  · simp [CanvasScene.start, CanvasScene.init, CanvasScene.new]
  · intro o ho
    simp only [CanvasScene.start, CanvasScene.init, CanvasScene.new,
      List.nil_append, List.mem_map] at ho
    obtain ⟨i, _, rfl⟩ := ho
    refine ⟨rfl, ?_, ?_, ?_⟩ <;> simp [GlobeDot.new, jr]
  · intro o ho
    simp only [CanvasScene.animate, CanvasScene.update, CanvasScene.draw,
      CanvasScene.start, CanvasScene.init, CanvasScene.new,
      List.nil_append, List.map_map, List.mem_map] at ho
    obtain ⟨i, _, rfl⟩ := ho
    refine ⟨?_, ?_, ?_, ?_, ?_, ?_⟩ <;>
      simp [GlobeDot.draw, GlobeDot.project, GlobeDot.update, GlobeDot.new, jr]
